import Mathlib

/-!
Shallow embedding of `src/main.cpp` from the OpenGLPractice7 repository.

The program is a single-file OpenGL demo: setup (GLFW / window / GLEW), a
fixed pyramid mesh upload (`createTriangle`), shader compilation
(`addShader` / `compileShaders`), and a render loop that advances a small
animation state (oscillating `triOffset`, wrapping `currentAngle`, color
phase `i`) once per iteration.

Floating point values in the source are modelled as exact rationals (the
constants 0.015, 1.0, 0.05, 0.00005) and, for the trigonometric background
color, as reals.  External API calls (GLFW, GLEW, OpenGL) are modelled by
their observable outcomes: boolean success results, returned ids/locations,
and an explicit binding-state record.
-/

namespace GLPractice

/-- Animation constant `triMaxOffset = 1.0f` (main.cpp line 29). -/
def triMaxOffset : ℚ := 1

/-- Animation constant `triTranslationIncrement = 0.015f` (main.cpp line 29). -/
def triTranslationIncrement : ℚ := 3 / 200

/-- Per-frame angle increment `0.05f` (main.cpp line 321). -/
def angleIncrement : ℚ := 1 / 20

/-- Per-frame color phase increment `0.00005f` (main.cpp line 320). -/
def phaseIncrement : ℚ := 1 / 20000

/-- The mutable animation state of the render loop: globals `triOffset`,
`direction`, `currentAngle` (main.cpp lines 28-32) and the loop-local static
color phase `i` (line 265). -/
structure AnimationState where
  triOffset : ℚ
  direction : Bool
  currentAngle : ℚ
  colorPhase : ℚ
deriving DecidableEq, Repr

/-- Initial values: `triOffset = 0`, `direction = true`, `currentAngle = 0`
(main.cpp lines 28-32), `static float i = 0` (line 265). -/
def initialState : AnimationState :=
  { triOffset := 0, direction := true, currentAngle := 0, colorPhase := 0 }

/-- One iteration of the render-loop body (main.cpp lines 264-322), in source
order: offset step (277-284), direction flip on `|triOffset| >= triMaxOffset`
(286-289), angle wrap-around check (291-294), then at the end of the
iteration `i += 0.00005` (line 320) and `currentAngle += 0.05` (line 321). -/
def frameStep (s : AnimationState) : AnimationState :=
  let off := if s.direction then s.triOffset + triTranslationIncrement
             else s.triOffset - triTranslationIncrement
  let dir := if |off| ≥ triMaxOffset then !s.direction else s.direction
  let wrapped := if s.currentAngle ≥ 360 then s.currentAngle - 360 else s.currentAngle
  { triOffset := off
    direction := dir
    currentAngle := wrapped + angleIncrement
    colorPhase := s.colorPhase + phaseIncrement }

/-- State at the start of loop iteration `n` (iteration 0 starts from the
global initial values). -/
def stateAt : ℕ → AnimationState
  | 0 => initialState
  | n + 1 => frameStep (stateAt n)

lemma stateAt_succ (n : ℕ) : stateAt (n + 1) = frameStep (stateAt n) := rfl

lemma frameStep_triOffset (s : AnimationState) :
    (frameStep s).triOffset =
      if s.direction then s.triOffset + triTranslationIncrement
      else s.triOffset - triTranslationIncrement := rfl

lemma frameStep_direction (s : AnimationState) :
    (frameStep s).direction =
      if |(frameStep s).triOffset| ≥ triMaxOffset then !s.direction
      else s.direction := rfl

lemma frameStep_currentAngle (s : AnimationState) :
    (frameStep s).currentAngle =
      (if s.currentAngle ≥ 360 then s.currentAngle - 360 else s.currentAngle) +
        angleIncrement := rfl

lemma frameStep_colorPhase (s : AnimationState) :
    (frameStep s).colorPhase = s.colorPhase + phaseIncrement := rfl

/-! Integer-scaled view of the offset/direction dynamics.  `triOffset` only
ever takes values that are integer multiples of `1/200` (the step is
`3/200`), so the pair (offset, direction) evolves like an integer dynamical
system scaled by 200.  This is used to compute concrete trajectory values
without deep kernel reduction on `ℚ`. -/

/-- Scaled step: the (triOffset * 200, direction) part of `frameStep`. -/
def odStep (p : ℤ × Bool) : ℤ × Bool :=
  let k := if p.2 then p.1 + 3 else p.1 - 3
  let d := if 200 ≤ |k| then !p.2 else p.2
  (k, d)

/-- Scaled trajectory: `(triOffset * 200, direction)` at iteration `n`. -/
def odScaled : ℕ → ℤ × Bool
  | 0 => (0, true)
  | n + 1 => odStep (odScaled n)

lemma odScaled_succ (n : ℕ) : odScaled (n + 1) = odStep (odScaled n) := rfl

lemma odStep_fst (p : ℤ × Bool) :
    (odStep p).1 = if p.2 then p.1 + 3 else p.1 - 3 := rfl

lemma odStep_snd (p : ℤ × Bool) :
    (odStep p).2 = if 200 ≤ |(odStep p).1| then !p.2 else p.2 := rfl

/-- Scaling lemma: an integer multiple of `1/200` has magnitude at least
`triMaxOffset = 1` exactly when the scaled integer has magnitude at least
200. -/
lemma abs_div200_ge (k : ℤ) :
    |((k : ℚ)) / 200| ≥ triMaxOffset ↔ 200 ≤ |k| := by
  rw [triMaxOffset, abs_div, show |(200:ℚ)| = 200 by norm_num, ge_iff_le,
    le_div_iff₀ (by norm_num : (0:ℚ) < 200), one_mul, ← Int.cast_abs]
  exact_mod_cast Iff.rfl

/-- Correspondence between the rational embedding and the scaled dynamics. -/
lemma od_spec (n : ℕ) :
    (stateAt n).triOffset = ((odScaled n).1 : ℚ) / 200 ∧
      (stateAt n).direction = (odScaled n).2 := by
  induction n with
  | zero => constructor <;> norm_num [stateAt, initialState, odScaled]
  | succ n ih =>
    obtain ⟨hoff, hdir⟩ := ih
    have hoff1 : (stateAt (n + 1)).triOffset = ((odScaled (n + 1)).1 : ℚ) / 200 := by
      rw [stateAt_succ, frameStep_triOffset, odScaled_succ, odStep_fst, hoff, hdir]
      cases h2 : (odScaled n).2 <;>
        simp only [if_true, if_false, Bool.false_eq_true] <;>
        rw [triTranslationIncrement] <;> push_cast <;> ring
    refine ⟨hoff1, ?_⟩
    rw [stateAt_succ, frameStep_direction, ← stateAt_succ, hoff1, hdir,
      odScaled_succ, odStep_snd]
    simp only [abs_div200_ge]

/-! Closed forms for the three linear phases of the scaled oscillation:
rising from 0 to 201 (frames 0-67), falling from 201 to -201 (frames
67-201), rising from -201 to 201 (frames 201-335); afterwards the
offset/direction pair is periodic with period 268. -/

/-- Rising phase from the initial state: no flip during frames 0-66. -/
lemma odA (n : ℕ) (h : n ≤ 66) : odScaled n = (3 * (n : ℤ), true) := by
  induction n with
  | zero => norm_num [odScaled]
  | succ n ih =>
    rw [odScaled_succ, ih (by omega)]
    have hk : ¬ (200 ≤ |3 * (n : ℤ) + 3|) := by
      rw [abs_of_nonneg (by positivity)]
      omega
    simp [odStep, hk]
    ring

/-- First flip: frame 67 has scaled offset 201 and direction false. -/
lemma od67 : odScaled 67 = (201, false) := by
  rw [show (67 : ℕ) = 66 + 1 from rfl, odScaled_succ, odA 66 (by norm_num)]
  norm_num [odStep]

/-- Falling phase: frames 67-200 keep direction false. -/
lemma odB (j : ℕ) (h : j ≤ 133) : odScaled (67 + j) = (201 - 3 * (j : ℤ), false) := by
  induction j with
  | zero => simpa using od67
  | succ j ih =>
    rw [show 67 + (j + 1) = (67 + j) + 1 by omega, odScaled_succ, ih (by omega)]
    have hk : ¬ (200 ≤ |201 - 3 * (j : ℤ) - 3|) := by
      rw [not_le, abs_lt]
      constructor <;> omega
    simp [odStep, hk]
    ring

/-- Second flip: frame 201 has scaled offset -201 and direction true. -/
lemma od201 : odScaled 201 = (-201, true) := by
  have h200 : odScaled 200 = (-198, false) := by
    have h := odB 133 (by norm_num)
    norm_num at h
    exact h
  rw [show (201 : ℕ) = 200 + 1 from rfl, odScaled_succ, h200]
  norm_num [odStep]

/-- Second rising phase: frames 201-334 keep direction true. -/
lemma odC (j : ℕ) (h : j ≤ 133) : odScaled (201 + j) = (-201 + 3 * (j : ℤ), true) := by
  induction j with
  | zero => simpa using od201
  | succ j ih =>
    rw [show 201 + (j + 1) = (201 + j) + 1 by omega, odScaled_succ, ih (by omega)]
    have hk : ¬ (200 ≤ |-201 + 3 * (j : ℤ) + 3|) := by
      rw [not_le, abs_lt]
      constructor <;> omega
    simp [odStep, hk]
    ring

/-- Scaled offset/direction returns to its initial value at frame 268. -/
lemma od268 : odScaled 268 = (0, true) := by
  have h := odC 67 (by norm_num)
  norm_num at h
  exact h

/-- The scaled offset/direction dynamics is periodic with period 268. -/
lemma od_periodic (n : ℕ) : odScaled (n + 268) = odScaled n := by
  induction n with
  | zero => simpa using od268
  | succ n ih => rw [show n + 1 + 268 = (n + 268) + 1 by omega, odScaled_succ, ih, odScaled_succ]

/-- Flip characterization over the first full period. -/
lemma flip_base (m : ℕ) (h : m < 268) :
    ((odScaled (m + 1)).2 ≠ (odScaled m).2) ↔ (m + 1) % 134 = 67 := by
  rcases lt_trichotomy m 66 with h1 | h1 | h1
  · rw [odA m (by omega), odA (m + 1) (by omega)]
    simp
    omega
  · subst h1
    rw [show (66 : ℕ) + 1 = 67 from rfl, od67, odA 66 (by norm_num)]
    simp
  · rcases lt_trichotomy m 200 with h2 | h2 | h2
    · obtain ⟨j, rfl⟩ : ∃ j, m = 67 + j := ⟨m - 67, by omega⟩
      rw [show 67 + j + 1 = 67 + (j + 1) by omega, odB j (by omega), odB (j + 1) (by omega)]
      simp
      omega
    · subst h2
      have h200 : odScaled 200 = (-198, false) := by
        have h := odB 133 (by norm_num)
        norm_num at h
        exact h
      rw [show (200 : ℕ) + 1 = 201 from rfl, od201, h200]
      simp
    · obtain ⟨j, rfl⟩ : ∃ j, m = 201 + j := ⟨m - 201, by omega⟩
      rw [show 201 + j + 1 = 201 + (j + 1) by omega, odC j (by omega), odC (j + 1) (by omega)]
      simp
      omega

/-- Flip characterization for every frame: the direction changes between
frames `m` and `m+1` exactly when `m + 1` is congruent to 67 modulo 134. -/
lemma flip_mod (m : ℕ) :
    ((odScaled (m + 1)).2 ≠ (odScaled m).2) ↔ (m + 1) % 134 = 67 := by
  induction m using Nat.strong_induction_on with
  | _ m ih =>
    rcases lt_or_ge m 268 with h | h
    · exact flip_base m h
    · obtain ⟨k, rfl⟩ : ∃ k, m = k + 268 := ⟨m - 268, by omega⟩
      rw [show k + 268 + 1 = (k + 1) + 268 by omega, od_periodic, od_periodic,
        ih k (by omega)]
      omega

/-! Inductive invariants of the animation update. -/

/-- Loop invariant for the oscillating offset: the offset stays within one
step of the maximum, and while moving towards an extreme it has not yet
passed the opposite extreme. -/
def OffsetInv (s : AnimationState) : Prop :=
  -(triMaxOffset + triTranslationIncrement) ≤ s.triOffset ∧
    s.triOffset ≤ triMaxOffset + triTranslationIncrement ∧
    (s.direction = true → s.triOffset ≤ triMaxOffset) ∧
    (s.direction = false → -triMaxOffset ≤ s.triOffset)

lemma offsetInv_init : OffsetInv initialState := by
  refine ⟨?_, ?_, fun _ => ?_, fun hd => ?_⟩
  · norm_num [initialState, triMaxOffset, triTranslationIncrement]
  · norm_num [initialState, triMaxOffset, triTranslationIncrement]
  · norm_num [initialState, triMaxOffset]
  · simp [initialState] at hd

lemma offsetInv_step (s : AnimationState) (h : OffsetInv s) : OffsetInv (frameStep s) := by
  obtain ⟨h1, h2, h3, h4⟩ := h
  have hsinc : (0:ℚ) < triTranslationIncrement := by norm_num [triTranslationIncrement]
  have hoff := frameStep_triOffset s
  have hdir := frameStep_direction s
  cases hd : s.direction with
  | true =>
    have hle : s.triOffset ≤ triMaxOffset := h3 hd
    rw [hd] at hoff hdir
    simp only [if_true] at hoff
    have hub : (frameStep s).triOffset ≤ triMaxOffset + triTranslationIncrement := by
      rw [hoff]; linarith
    have hlb : -triMaxOffset ≤ (frameStep s).triOffset := by
      rw [hoff]; linarith
    refine ⟨by linarith, hub, fun hd2 => ?_, fun hd2 => hlb⟩
    rw [hdir] at hd2
    by_cases hc : |(frameStep s).triOffset| ≥ triMaxOffset
    · rw [if_pos hc] at hd2; simp at hd2
    · push_neg at hc
      have := abs_lt.mp hc
      linarith [this.2]
  | false =>
    have hge : -triMaxOffset ≤ s.triOffset := h4 hd
    rw [hd] at hoff hdir
    simp only [Bool.false_eq_true, if_false] at hoff
    have hub : (frameStep s).triOffset ≤ triMaxOffset := by
      rw [hoff]; linarith
    have hlb : -(triMaxOffset + triTranslationIncrement) ≤ (frameStep s).triOffset := by
      rw [hoff]; linarith
    refine ⟨hlb, by linarith, fun hd2 => hub, fun hd2 => ?_⟩
    rw [hdir] at hd2
    by_cases hc : |(frameStep s).triOffset| ≥ triMaxOffset
    · rw [if_pos hc] at hd2; simp at hd2
    · push_neg at hc
      have := abs_lt.mp hc
      linarith [this.1]

lemma offsetInv_all (n : ℕ) : OffsetInv (stateAt n) := by
  induction n with
  | zero => exact offsetInv_init
  | succ n ih => exact offsetInv_step _ ih

/-- Bounds invariant for `currentAngle` as held in the state: it is
non-negative and below `360 + 0.05` at the start of every iteration. -/
lemma angle_bounds (n : ℕ) :
    0 ≤ (stateAt n).currentAngle ∧
      (stateAt n).currentAngle < 360 + angleIncrement := by
  have hinc : (0:ℚ) < angleIncrement := by norm_num [angleIncrement]
  have hinc2 : angleIncrement ≤ 360 := by norm_num [angleIncrement]
  induction n with
  | zero => norm_num [stateAt, initialState, angleIncrement]
  | succ n ih =>
    obtain ⟨h1, h2⟩ := ih
    rw [stateAt_succ, frameStep_currentAngle]
    by_cases hc : (stateAt n).currentAngle ≥ 360
    · rw [if_pos hc]
      constructor <;> linarith
    · rw [if_neg hc]
      push_neg at hc
      constructor <;> linarith

/-- Angle value actually used during iteration `n` (printed at line 302),
i.e. the value of `currentAngle` after the wrap check at lines 291-294. -/
def drawnAngle (n : ℕ) : ℚ :=
  if (stateAt n).currentAngle ≥ 360 then (stateAt n).currentAngle - 360
  else (stateAt n).currentAngle

lemma drawnAngle_bounds (n : ℕ) : 0 ≤ drawnAngle n ∧ drawnAngle n < 360 := by
  obtain ⟨h1, h2⟩ := angle_bounds n
  have hinc : angleIncrement = 1 / 20 := rfl
  rw [drawnAngle]
  by_cases hc : (stateAt n).currentAngle ≥ 360
  · rw [if_pos hc]
    constructor <;> [linarith; (rw [hinc] at h2; linarith)]
  · rw [if_neg hc]
    push_neg at hc
    exact ⟨h1, hc⟩

lemma stateAt_currentAngle_succ (n : ℕ) :
    (stateAt (n + 1)).currentAngle = drawnAngle n + angleIncrement := by
  rw [stateAt_succ, frameStep_currentAngle, drawnAngle]

/-- Transfer of the concrete frame-67 offset value from the scaled dynamics:
`triOffset` at frame 67 is `201/200 = 1.005`. -/
lemma triOffset67 : (stateAt 67).triOffset = 201 / 200 := by
  have h := (od_spec 67).1
  rw [od67] at h
  rw [h]
  norm_num

lemma direction_eq (n : ℕ) : (stateAt n).direction = (odScaled n).2 :=
  (od_spec n).2

/-! Embedding of the setup phase of `main` (main.cpp lines 186-235): the
GLFW initialization check, the window creation check and the GLEW
initialization check, each modelled by its boolean outcome. -/

/-- Outcomes of the three external setup calls made by `main`:
`glfwInit()` (line 189), `glfwCreateWindow` returning non-null (line 211),
and whether `glewInit() == GLEW_OK` (line 229). -/
structure SetupOutcome where
  glfwInitOk : Bool
  windowCreated : Bool
  glewInitOk : Bool
deriving DecidableEq, Repr

/-- Exit code of `main` as a function of the setup outcomes: `return 1` at
lines 195, 215 and 234, otherwise the render loop runs until the window is
closed and `main` returns 0 at line 331.  Note that the source condition at
line 229 is `if (glewInit() == GLEW_OK)`, so the early-return branch is
taken when GLEW initialization succeeds. -/
def mainExitCode (o : SetupOutcome) : ℕ :=
  if !o.glfwInitOk then 1
  else if !o.windowCreated then 1
  else if o.glewInitOk then 1
  else 0

/-- Exit-code contract stated by the specification: 1 exactly on a setup
failure, 0 on normal termination. -/
def specExitContract : Prop :=
  ∀ o : SetupOutcome,
    mainExitCode o = 1 ↔
      (o.glfwInitOk = false ∨ o.windowCreated = false ∨ o.glewInitOk = false)

/-! Embedding of the shader component (main.cpp lines 110-184). -/

/-- Outcomes of the external GL calls made by `addShader` for one stage:
the id from `glCreateShader` (line 112), the GL_COMPILE_STATUS after
`glCompileShader` (line 130), and the driver-side info log text. -/
structure StageOutcome where
  shaderId : ℕ
  compileOk : Bool
  infoLog : List Char
deriving DecidableEq, Repr

/-- Size of the stack buffer `char errorLog[1024]` (lines 128 and 158),
passed as the buffer size to `glGetShaderInfoLog` / `glGetProgramInfoLog`. -/
def errorLogSize : ℕ := 1024

/-- Model of `glGetShaderInfoLog(shader, bufSize, nullptr, buf)` (line 134):
the driver writes at most `bufSize - 1` characters of the log followed by a
null terminator into the buffer. -/
def getShaderInfoLog (bufSize : ℕ) (log : List Char) : List Char :=
  log.take (bufSize - 1)

/-- Observable result of `addShader` (lines 110-141) for one stage: whether
the new stage object was attached to the program (`glAttachShader`, line
140) and the diagnostic printed on compile failure (line 135).  The
function is total: on compile failure it prints the capped log and returns
(line 136); it never aborts the process. -/
def addShader (program : ℕ) (st : StageOutcome) : Bool × Option (List Char) :=
  if !st.compileOk then (false, some (getShaderInfoLog errorLogSize st.infoLog))
  else (true, none)

/-- Outcomes of the external GL calls made by `compileShaders` (lines
143-184): the program id from `glCreateProgram` (0 on failure), the
GL_LINK_STATUS and GL_VALIDATE_STATUS query results, and the two uniform
locations returned by `glGetUniformLocation`. -/
structure ProgramOutcome where
  programId : ℕ
  linkOk : Bool
  validateOk : Bool
  modelLoc : ℤ
  projectionLoc : ℤ
deriving DecidableEq, Repr

/-- Conversion of a GLint uniform location to the `unsigned int` globals
`uniformModel` / `uniformProjection` (line 27): reduction modulo 2^32. -/
def toUnsigned (z : ℤ) : ℕ := (z % 2 ^ 32).toNat

/-- Conversion used by the per-frame uploads at lines 308-309,
`(int) uniformModel`: two's-complement reinterpretation of the unsigned
32-bit value. -/
def toSigned (n : ℕ) : ℤ :=
  if n % 2 ^ 32 < 2 ^ 31 then (n % 2 ^ 32 : ℤ) else (n % 2 ^ 32 : ℤ) - 2 ^ 32

/-- Effect of `compileShaders` (lines 143-184) on the globals
`uniformModel` and `uniformProjection` (zero-initialized at line 27), given
the outcomes of the GL calls: the function returns early at line 151 if
program creation failed, at line 168 if linking failed and at line 179 if
validation failed, leaving both globals untouched; only when all three
checks pass does it assign the resolved locations (lines 182-183). -/
def compileShaders (g : ProgramOutcome) (um up : ℕ) : ℕ × ℕ :=
  if g.programId = 0 then (um, up)
  else if !g.linkOk then (um, up)
  else if !g.validateOk then (um, up)
  else (toUnsigned g.modelLoc, toUnsigned g.projectionLoc)

/-! Embedding of the geometry upload (main.cpp lines 63-108) and the
per-frame draw call (line 313). -/

/-- Index array from `createTriangle` (lines 65-70). -/
def pyramidIndices : List ℕ := [0, 3, 1, 1, 3, 2, 2, 3, 0, 0, 1, 2]

/-- Vertex coordinate array from `createTriangle` (lines 73-78): four
vertices of three floats each. -/
def pyramidVertices : List ℚ :=
  [-1, -1, 0, 0, -1, 1, 1, -1, 0, 1, 1, 0]

/-- Grouping of a flat index list into the triangles consumed by
`glDrawElements(GL_TRIANGLES, ...)`: consecutive triples form triangles. -/
def toTriangles : List ℕ → List (ℕ × ℕ × ℕ)
  | a :: b :: c :: rest => (a, b, c) :: toTriangles rest
  | _ => []

/-- Primitive modes of the GL draw calls appearing in this program. -/
inductive PrimitiveMode where
  | triangles
  | lines
  | points
deriving DecidableEq, Repr

/-- One submitted draw call: primitive mode and index count. -/
structure DrawCall where
  mode : PrimitiveMode
  count : ℕ
deriving DecidableEq, Repr

/-- Draw calls submitted during one iteration of the render loop: exactly
one `glDrawElements(GL_TRIANGLES, 12, GL_UNSIGNED_INT, nullptr)`
(line 313). -/
def frameDrawCalls : List DrawCall :=
  [{ mode := PrimitiveMode.triangles, count := 12 }]

/-! Embedding of the GL binding state touched by `createTriangle`. -/

/-- The GL binding state mutated by `createTriangle`: the current vertex
array, GL_ARRAY_BUFFER and GL_ELEMENT_ARRAY_BUFFER bindings (0 means
unbound). -/
structure GLBindings where
  vertexArrayBinding : ℕ
  arrayBufferBinding : ℕ
  elementArrayBufferBinding : ℕ
deriving DecidableEq, Repr

/-- Effect of `createTriangle` (lines 63-108) on the binding state, given
the object ids produced by `glGenVertexArrays` / `glGenBuffers`: bind the
VAO (line 82), bind and fill the index buffer (86-87), bind and fill the
vertex buffer (91-92), configure attribute 0 (101-102), then unbind the
array buffer, the element array buffer and the vertex array (104-107).
The function is total: the source has no failure path. -/
def createTriangle (vaoId iboId vboId : ℕ) (s : GLBindings) : GLBindings :=
  let s1 := { s with vertexArrayBinding := vaoId }
  let s2 := { s1 with elementArrayBufferBinding := iboId }
  let s3 := { s2 with arrayBufferBinding := vboId }
  let s4 := { s3 with arrayBufferBinding := 0 }
  let s5 := { s4 with elementArrayBufferBinding := 0 }
  { s5 with vertexArrayBinding := 0 }

/-! Embedding of the per-frame background color (main.cpp lines 273-275). -/

/-- Background clear color computed each frame from the color phase `i`
(lines 273-275, passed to `glClearColor` at line 297): three rectified,
phase-shifted sine waves. -/
noncomputable def clearColor (i : ℝ) : ℝ × ℝ × ℝ :=
  (|Real.sin (i + 2 * Real.pi / 3)|, |Real.sin i|,
    |Real.sin (i - 2 * Real.pi / 3)|)

/-! Claim theorems. -/

/-- C1 (code bug evidence): the spec says `main` returns 1 exactly on a
setup failure, but the GLEW check at line 229 is inverted
(`if (glewInit() == GLEW_OK)` guards the error branch): on a run where
GLFW initialization, window creation and GLEW initialization all succeed,
`main` prints the GLEW error message and returns 1; on a run where GLEW
initialization fails, `main` keeps running and eventually returns 0.  In
particular the spec's exit-code contract is falsified in both
directions. -/
theorem mainExitCode_inverted_glew_check :
    mainExitCode { glfwInitOk := true, windowCreated := true, glewInitOk := true } = 1 ∧
      mainExitCode { glfwInitOk := true, windowCreated := true, glewInitOk := false } = 0 ∧
      ¬ specExitContract := by
  refine ⟨rfl, rfl, fun h => ?_⟩
  have := (h { glfwInitOk := true, windowCreated := true, glewInitOk := true }).mp rfl
  rcases this with h1 | h1 | h1 <;> simp at h1

/-- C2 (counterexample): the claimed invariant `offset ∈ [-1, 1]` fails on
the code: at frame 67 the offset is `201/200 = 1.005`, strictly above
`triMaxOffset = 1` (the flip happens only after the step is applied). -/
theorem triOffset_exceeds_max_at_67 :
    (stateAt 67).triOffset = 201 / 200 ∧
      ¬ ((stateAt 67).triOffset ≤ triMaxOffset) := by
  rw [triOffset67, triMaxOffset]
  norm_num

/-- C2 (amended): for every frame, `offset` stays within the widened
interval `[-(offset_max + offset_step), offset_max + offset_step]`, and the
direction flag flips exactly when `|offset| >= offset_max` (evaluated on
the freshly stepped offset, lines 286-289). -/
theorem triOffset_widened_invariant_and_flip (n : ℕ) :
    (-(triMaxOffset + triTranslationIncrement) ≤ (stateAt n).triOffset ∧
      (stateAt n).triOffset ≤ triMaxOffset + triTranslationIncrement) ∧
    ((stateAt (n + 1)).direction ≠ (stateAt n).direction ↔
      |(stateAt (n + 1)).triOffset| ≥ triMaxOffset) := by
  obtain ⟨h1, h2, h3, h4⟩ := offsetInv_all n
  refine ⟨⟨h1, h2⟩, ?_⟩
  rw [stateAt_succ, frameStep_direction, ← stateAt_succ]
  by_cases hc : |(stateAt (n + 1)).triOffset| ≥ triMaxOffset
  · rw [if_pos hc]
    simp [hc]
  · rw [if_neg hc]
    simp [hc]

/-- C3: for every frame, `offset` stays within
`[-offset_max - offset_step, offset_max + offset_step]`: the direction flip
is applied after the step, the offset moves by exactly one
`triTranslationIncrement` each frame, and it is never clamped. -/
theorem triOffset_overshoot_bound (n : ℕ) :
    (-(triMaxOffset + triTranslationIncrement) ≤ (stateAt n).triOffset ∧
      (stateAt n).triOffset ≤ triMaxOffset + triTranslationIncrement) ∧
    ((stateAt (n + 1)).triOffset =
        (stateAt n).triOffset + triTranslationIncrement ∨
      (stateAt (n + 1)).triOffset =
        (stateAt n).triOffset - triTranslationIncrement) := by
  obtain ⟨h1, h2, _, _⟩ := offsetInv_all n
  refine ⟨⟨h1, h2⟩, ?_⟩
  rw [stateAt_succ, frameStep_triOffset]
  cases (stateAt n).direction <;> simp

/-- C4: starting from offset 0 with direction increasing, the direction is
still increasing at frame 66 and flips for the first time on frame 67
(`= ⌈offset_max / offset_step⌉`), where the offset is `201/200 = 1.005`;
in general the direction flips exactly at frames congruent to 67 modulo
134, i.e. exactly once per half-cycle of 134 = 2*67 frames. -/
theorem direction_flip_timing :
    (stateAt 66).direction = true ∧
    (stateAt 67).direction = false ∧
    (stateAt 67).triOffset = 201 / 200 ∧
    (67 : ℤ) = ⌈triMaxOffset / triTranslationIncrement⌉ ∧
    ∀ n : ℕ,
      ((stateAt (n + 1)).direction ≠ (stateAt n).direction ↔
        (n + 1) % 134 = 67) := by
  refine ⟨?_, ?_, triOffset67, ?_, ?_⟩
  · rw [direction_eq, odA 66 (by norm_num)]
  · rw [direction_eq, od67]
  · rw [triMaxOffset, triTranslationIncrement]
    rw [show (1 : ℚ) / (3 / 200) = 200 / 3 by norm_num]
    symm
    rw [Int.ceil_eq_iff]
    constructor <;> norm_num
  · intro n
    rw [direction_eq, direction_eq]
    exact flip_mod n

/-- C5: each frame the post-wrap angle value advances by exactly 0.05
(modulo a single wrap), stays in `[0, 360)`, is reduced by exactly 360 on
the frame in which the stored value has crossed the threshold 360, and the
stored value never accumulates more than one pending wrap (it stays below
720, in fact below 360.05). -/
theorem currentAngle_wrap_behavior (n : ℕ) :
    (0 ≤ drawnAngle n ∧ drawnAngle n < 360) ∧
    (stateAt (n + 1)).currentAngle = drawnAngle n + angleIncrement ∧
    (drawnAngle (n + 1) = drawnAngle n + angleIncrement ∨
      drawnAngle (n + 1) = drawnAngle n + angleIncrement - 360) ∧
    ((stateAt n).currentAngle ≥ 360 ↔
      drawnAngle n = (stateAt n).currentAngle - 360) ∧
    (stateAt n).currentAngle < 720 := by
  have hb := drawnAngle_bounds n
  have ha := angle_bounds n
  have hinc : angleIncrement = 1 / 20 := rfl
  refine ⟨hb, stateAt_currentAngle_succ n, ?_, ?_, ?_⟩
  · rw [drawnAngle, stateAt_currentAngle_succ n]
    by_cases hc : drawnAngle n + angleIncrement ≥ 360
    · rw [if_pos hc]
      right
      rfl
    · rw [if_neg hc]
      left
      rfl
  · constructor
    · intro hc
      rw [drawnAngle, if_pos hc]
    · intro hc
      by_contra hlt
      push_neg at hlt
      rw [drawnAngle, if_neg (by linarith)] at hc
      linarith
  · rw [hinc] at ha
    linarith [ha.2]

/-- C6: if program linking or validation fails, `compileShaders` returns
before resolving any uniform location, so the globals `uniformModel` and
`uniformProjection` keep their initial value 0; the per-frame
`glUniformMatrix4fv` calls therefore receive location `(int)0 = 0`, not the
no-op sentinel -1. -/
theorem uniformLocations_zero_on_failed_link_or_validate
    (g : ProgramOutcome) (h : g.linkOk = false ∨ g.validateOk = false) :
    compileShaders g 0 0 = (0, 0) ∧
    toSigned (compileShaders g 0 0).1 = 0 ∧
    toSigned (compileShaders g 0 0).1 ≠ -1 ∧
    toSigned (compileShaders g 0 0).2 = 0 ∧
    toSigned (compileShaders g 0 0).2 ≠ -1 := by
  have h0 : compileShaders g 0 0 = (0, 0) := by
    by_cases hp : g.programId = 0
    · simp [compileShaders, hp]
    · rcases h with h | h
      · simp [compileShaders, hp, h]
      · cases hl : g.linkOk <;> simp [compileShaders, hp, h, hl]
  rw [h0]
  refine ⟨rfl, ?_, ?_, ?_, ?_⟩ <;> norm_num [toSigned]

/-- C6 witness: concrete application at a failed link. -/
theorem uniformLocations_zero_witness :
    compileShaders
        { programId := 5, linkOk := false, validateOk := true,
          modelLoc := 3, projectionLoc := 4 } 0 0 = (0, 0) :=
  (uniformLocations_zero_on_failed_link_or_validate
    { programId := 5, linkOk := false, validateOk := true,
      modelLoc := 3, projectionLoc := 4 } (Or.inl rfl)).1

/-- C7: for every phase `i`, the background clear color is the triple of
rectified phase-shifted sine waves `(|sin(i + 2pi/3)|, |sin i|,
|sin(i - 2pi/3)|)`, each channel lies in `[0, 1]`, and the phase advances
by the fixed increment 0.00005 each frame. -/
theorem clearColor_channels_in_unit_interval (i : ℝ) (n : ℕ) :
    clearColor i =
      (|Real.sin (i + 2 * Real.pi / 3)|, |Real.sin i|,
        |Real.sin (i - 2 * Real.pi / 3)|) ∧
    (0 ≤ (clearColor i).1 ∧ (clearColor i).1 ≤ 1) ∧
    (0 ≤ (clearColor i).2.1 ∧ (clearColor i).2.1 ≤ 1) ∧
    (0 ≤ (clearColor i).2.2 ∧ (clearColor i).2.2 ≤ 1) ∧
    (stateAt (n + 1)).colorPhase = (stateAt n).colorPhase + phaseIncrement := by
  refine ⟨rfl, ⟨abs_nonneg _, ?_⟩, ⟨abs_nonneg _, ?_⟩, ⟨abs_nonneg _, ?_⟩, ?_⟩
  · exact abs_le.mpr ⟨Real.neg_one_le_sin _, Real.sin_le_one _⟩
  · exact abs_le.mpr ⟨Real.neg_one_le_sin _, Real.sin_le_one _⟩
  · exact abs_le.mpr ⟨Real.neg_one_le_sin _, Real.sin_le_one _⟩
  · rw [stateAt_succ, frameStep_colorPhase]

/-- C8: the geometry is exactly 4 vertices (12 floats) and a fixed list of
12 indices forming 4 triangles (three sides containing the apex index 3 and
one base (0,1,2)), every index references a vertex 0-3, and each loop
iteration submits exactly one triangle-mode draw call covering exactly
those 12 indices. -/
theorem pyramid_geometry_and_draw :
    pyramidIndices.length = 12 ∧
    pyramidVertices.length = 4 * 3 ∧
    pyramidIndices.all (fun ix => ix < 4) = true ∧
    toTriangles pyramidIndices = [(0, 3, 1), (1, 3, 2), (2, 3, 0), (0, 1, 2)] ∧
    (toTriangles pyramidIndices).length = 4 ∧
    ((toTriangles pyramidIndices).filter
        (fun t => t.1 == 3 || t.2.1 == 3 || t.2.2 == 3)).length = 3 ∧
    (toTriangles pyramidIndices).filter
        (fun t => !(t.1 == 3 || t.2.1 == 3 || t.2.2 == 3)) = [(0, 1, 2)] ∧
    frameDrawCalls = [{ mode := PrimitiveMode.triangles, count := 12 }] ∧
    frameDrawCalls.length = 1 ∧
    (frameDrawCalls.map DrawCall.count).sum = pyramidIndices.length := by
  refine ⟨rfl, rfl, rfl, rfl, rfl, rfl, rfl, rfl, rfl, rfl⟩

/-- C9: when a stage fails to compile, `addShader` reads the diagnostic log
into the 1024-byte buffer (so at most 1023 characters plus the terminator),
reports it as a warning, does not attach the stage to the program, and
returns normally (the function is total, so the process continues). -/
theorem addShader_compile_failure_no_attach (program : ℕ) (st : StageOutcome) :
    (addShader program { st with compileOk := false }).1 = false ∧
    (addShader program { st with compileOk := false }).2 =
      some (getShaderInfoLog errorLogSize st.infoLog) ∧
    (getShaderInfoLog errorLogSize st.infoLog).length + 1 ≤ errorLogSize ∧
    (addShader program { st with compileOk := true }).1 = true := by
  refine ⟨rfl, rfl, ?_, rfl⟩
  rw [getShaderInfoLog, errorLogSize]
  have := List.length_take_le (1024 - 1) st.infoLog
  omega

/-- C10: on return from `createTriangle`, the vertex-array binding, the
array-buffer binding and the element-array-buffer binding are all 0
(unbound), for every choice of generated ids and every initial binding
state; the function is total, so there is no failure path. -/
theorem createTriangle_clears_bindings
    (vaoId iboId vboId : ℕ) (s : GLBindings) :
    (createTriangle vaoId iboId vboId s).vertexArrayBinding = 0 ∧
    (createTriangle vaoId iboId vboId s).arrayBufferBinding = 0 ∧
    (createTriangle vaoId iboId vboId s).elementArrayBufferBinding = 0 :=
  ⟨rfl, rfl, rfl⟩

end GLPractice
